import Mathlib

/-!
Shallow embedding of the nomad-driver-tart plugin (Go) and proofs about the
behaviour its specification claims.  Pure Go functions become Lean functions
over the same data; subprocess execution is modelled by explicit command
traces with boolean success oracles; the poll-driven VM monitor becomes a
function over the sequence of status observations it would make.
-/

namespace NomadDriverTart

/- ### Go string primitives

The driver uses `strings.TrimSpace`, `strings.ToLower`, `strings.Join`,
`strings.SplitN`/`Split` from the Go standard library.  They are modelled
here by structurally recursive functions over the character list of a
`String`, so that every definition evaluates inside the kernel. -/

/-- Whitespace as recognized by Go's `unicode.IsSpace` on the Latin-1 range:
space, tab, newline, vertical tab, form feed, carriage return, NEL, NBSP. -/
def goIsSpace (c : Char) : Bool :=
  c = ' ' || c = '\t' || c = '\n' || c = Char.ofNat 11 || c = Char.ofNat 12 ||
  c = '\r' || c = Char.ofNat 0x85 || c = Char.ofNat 0xA0

/-- Model of Go `strings.TrimSpace`: drop leading and trailing whitespace. -/
def trimSpace (s : String) : String :=
  ⟨((s.data.dropWhile goIsSpace).reverse.dropWhile goIsSpace).reverse⟩

/-- Model of Go `strings.ToLower` (the driver only lowercases ASCII data,
where Go's and Lean's per-character lowering agree). -/
def lowerStr (s : String) : String :=
  ⟨s.data.map Char.toLower⟩

/-- Auxiliary splitter: split a character list at every occurrence of `sep`. -/
def splitCharsOn (sep : Char) : List Char → List Char → List (List Char)
  | [], acc => [acc.reverse]
  | c :: cs, acc =>
    if c = sep then acc.reverse :: splitCharsOn sep cs []
    else splitCharsOn sep cs (c :: acc)

/-- Model of Go `strings.Split` on a single-character separator. -/
def splitOnChar (sep : Char) (s : String) : List String :=
  (splitCharsOn sep s.data []).map (fun cs => ⟨cs⟩)

/-- Remainder of a character list after the first occurrence of `pat`,
or `none` when `pat` does not occur. -/
def dropAfterPat (pat : List Char) : List Char → Option (List Char)
  | [] => none
  | c :: cs =>
    if pat.isPrefixOf (c :: cs) then some ((c :: cs).drop pat.length)
    else dropAfterPat pat cs

/-- Decidable equality for `Except`, so concrete runs of the fallible
builders can be checked by `decide`. -/
instance exceptDecidableEq {ε α : Type} [DecidableEq ε] [DecidableEq α] :
    DecidableEq (Except ε α) := fun x y =>
  match x, y with
  | .ok a, .ok b =>
    if h : a = b then .isTrue (by rw [h])
    else .isFalse (by intro hc; cases hc; exact h rfl)
  | .ok _, .error _ => .isFalse (by intro hc; cases hc)
  | .error _, .ok _ => .isFalse (by intro hc; cases hc)
  | .error e, .error f =>
    if h : e = f then .isTrue (by rw [h])
    else .isFalse (by intro hc; cases hc; exact h rfl)

/- ### Data model (driver/config.go, part_008) -/

/-- NetworkConfig describes networking configuration for a task
(driver/config.go). -/
structure NetworkConfig where
  Mode : String
  BridgedInterface : String
  SoftnetAllow : List String
  SoftnetExpose : List String

/-- RootDiskOptions from the task config (part_008): read-only flag plus
optional caching and sync mode strings (nil pointers become `none`). -/
structure RootDiskOptions where
  ReadOnly : Bool
  SyncMode : Option String
  CachingMode : Option String

/-- DirectoryOptions controls how a directory mount is handled (part_008). -/
structure DirectoryOptions where
  ReadOnly : Bool
  Tag : String

/-- DirectoryMount is a single directory block from the config (part_008). -/
structure DirectoryMount where
  Name : String
  Path : String
  Options : Option DirectoryOptions

/-- Auth holds registry credentials (driver/config.go). -/
structure Auth where
  Username : String
  Password : String

/-- Auth.IsValid (driver/config.go lines 31-33). -/
def Auth.IsValid (a : Auth) : Bool :=
  a.Username != "" && a.Password != ""

/-- CleanValue lowercases the input and trims whitespace (part_001). -/
def CleanValue (value : String) : String :=
  trimSpace (lowerStr value)

/- ### Network argument builder (driver/networking.go) -/

/-- buildTartNetworkArgs computes the tart networking flags from an optional
NetworkConfig, enforcing mutual exclusivity among host, bridged and softnet
modes (driver/networking.go lines 11-70).  Fallible Go `(args, err)` becomes
`Except`. -/
def buildTartNetworkArgs : Option NetworkConfig → Except String (List String)
  | none => .ok []
  | some cfg =>
    let mode := lowerStr (trimSpace cfg.Mode)
    let bridgedIf := trimSpace cfg.BridgedInterface
    let allow := cfg.SoftnetAllow
    let expose := cfg.SoftnetExpose
    let isDefault := mode == "" || mode == "default" || mode == "shared" || mode == "nat"
    let impliedSoftnet := isDefault && (!allow.isEmpty || !expose.isEmpty)
    if mode == "host" then
      if bridgedIf != "" || !allow.isEmpty || !expose.isEmpty then
        .error "networking options conflict: host mode cannot be combined with bridged_interface or softnet options"
      else
        .ok ["--net-host"]
    else if mode == "bridged" then
      if bridgedIf == "" then
        .error "bridged mode requires 'bridged_interface'"
      else if !allow.isEmpty || !expose.isEmpty then
        .error "networking options conflict: bridged mode cannot be combined with softnet options"
      else
        .ok ["--net-bridged", bridgedIf]
    else if mode == "softnet" || impliedSoftnet then
      let n := ["--net-softnet"]
      let n := if !allow.isEmpty then n ++ ["--net-softnet-allow", String.intercalate "," allow] else n
      let n := if !expose.isEmpty then n ++ ["--net-softnet-expose", String.intercalate "," expose] else n
      if bridgedIf != "" then
        .error "networking options conflict: softnet mode cannot be combined with bridged_interface"
      else
        .ok n
    else if !isDefault then
      .error ("unknown networking mode: " ++ mode)
    else
      .ok []

/- ### Root disk argument builder (driver/disk.go) -/

/-- Value of the `caching` key: the Go `switch` on the cleaned mode string has
no default case, so an unrecognized mode leaves the zero value `""`
(driver/disk.go lines 18-31). -/
def cachingValueOf (raw : String) : String :=
  match CleanValue raw with
  | "automatic" => "automatic"
  | "uncached" => "uncached"
  | "cached" => "cached"
  | _ => ""

/-- Value of the `sync` key, analogous to `cachingValueOf`
(driver/disk.go lines 33-43). -/
def syncValueOf (raw : String) : String :=
  match CleanValue raw with
  | "fsync" => "fsync"
  | "full" => "full"
  | "none" => "none"
  | _ => ""

/-- buildRootDiskArgs joins the configured root-disk options into a single
`--root-disk-opts=` token; a nil config yields no arguments
(driver/disk.go lines 8-48). -/
def buildRootDiskArgs : Option RootDiskOptions → Except String (List String)
  | none => .ok []
  | some cfg =>
    let args : List String := []
    let args := if cfg.ReadOnly then args ++ ["ro"] else args
    let args := match cfg.CachingMode with
      | some m => args ++ ["caching=" ++ cachingValueOf m]
      | none => args
    let args := match cfg.SyncMode with
      | some m => args ++ ["sync=" ++ syncValueOf m]
      | none => args
    .ok ["--root-disk-opts=" ++ String.intercalate "," args]

/- ### Directory argument builder (part_006) -/

/-- Options suffix of one `--dir=` token: `ro` and `tag=<value>` comma-joined
and prefixed by a colon, empty when no option applies or the options block is
nil (part_006 lines 37-50). -/
def dirOptionsSuffix : Option DirectoryOptions → String
  | none => ""
  | some o =>
    let opts := (if o.ReadOnly then ["ro"] else []) ++
      (if trimSpace o.Tag != "" then ["tag=" ++ trimSpace o.Tag] else [])
    if !opts.isEmpty then ":" ++ String.intercalate "," opts else ""

/-- buildDirectoryArgs converts directory mounts into tart `--dir=` flags,
one token per mount, rejecting empty or whitespace-only paths
(part_006 lines 14-55). -/
def buildDirectoryArgs : List DirectoryMount → Except String (List String)
  | [] => .ok []
  | d :: rest =>
    let path := trimSpace d.Path
    if path == "" then
      .error "directory.path is required for directory mounts"
    else
      let name := trimSpace d.Name
      let spec := (if name != "" then name ++ ":" else "") ++ path ++ dirOptionsSuffix d.Options
      match buildDirectoryArgs rest with
      | .error e => .error e
      | .ok args => .ok (("--dir=" ++ spec) :: args)

/- ### VM status (part_003, driver/tart_client.go) -/

/-- VMState represents the state of a virtual machine (part_003). -/
inductive VMState where
  | stopped
  | running
  | paused
deriving DecidableEq, Repr

/-- convertTartStatus converts tool-reported status strings to `VMState`,
lowercasing first and defaulting to Stopped
(driver/tart_client.go lines 330-339). -/
def convertTartStatus (tartStatus : String) : VMState :=
  match lowerStr tartStatus with
  | "running" => VMState.running
  | "paused" => VMState.paused
  | _ => VMState.stopped

/-- VMInfo pairs a VM name with its derived state (part_003). -/
structure VMInfo where
  Name : String
  Status : VMState
deriving DecidableEq, Repr

/- ### Fingerprint slot computation (driver/fingerprinting.go) -/

/-- Fixed ceiling of 2 concurrent VMs mandated by the virtualization
framework (driver/fingerprinting.go line 18). -/
def maxVMSlots : Nat := 2

/-- Count of VMs in the Running state among the observed list
(driver/fingerprinting.go lines 94-99). -/
def runningVMsCount (vms : List VMInfo) : Nat :=
  (vms.filter (fun vm => vm.Status = VMState.running)).length

/-- Available-slot value computed by buildFingerprint: the ceiling minus the
running count, clamped at zero with a warning when it would go negative
(driver/fingerprinting.go lines 100-107).  Go int arithmetic becomes `Int`. -/
def availableSlots (vms : List VMInfo) : Int :=
  let a : Int := (maxVMSlots : Int) - (runningVMsCount vms : Int)
  if a < 0 then 0 else a

/- ### Poll-driven VM monitor (part_000, handleWait) -/

/-- One observation of `GetVMStatus`: either a state or an error
(the Go call returns `(VMState, error)`). -/
abbrev StatusObs := Except Unit VMState

/-- State of the monitored task handle after the monitor consumes a sequence
of status observations: still Running with nothing emitted, or Exited with
an exit code and a flag recording whether the exit result carries an error. -/
inductive MonitorResult where
  | running
  | exited (exitCode : Nat) (errored : Bool)
deriving DecidableEq, Repr

/-- Exit code chosen by handleWait once a non-Running status is committed:
0 for a normal stop, 1 for any other state (part_000 lines 85-90). -/
def exitCodeFor (s : VMState) : Nat :=
  if s = VMState.stopped then 0 else 1

/-- monitorRun is the poll loop of handleWait (part_000 lines 35-106) over
the sequence of status observations it makes, one list entry per
`GetVMStatus` call (both the 5-second ticks and the 1-second confirmation
re-reads consume entries).  A failed first read exits immediately with an
error result; a non-Running first read consumes one confirmation read and
continues only when that read reports Running; a failed confirmation read
leaves the Go status variable at the zero value, which is not Stopped, so
the exit code is 1.  An exhausted sequence leaves the handle Running. -/
def monitorRun : List StatusObs → MonitorResult
  | [] => .running
  | .error _ :: _ => .exited 1 true
  | .ok s :: rest =>
    if s = VMState.running then monitorRun rest
    else
      match rest with
      | [] => .running
      | .error _ :: _ => .exited 1 false
      | .ok s2 :: rest2 =>
        if s2 = VMState.running then monitorRun rest2
        else .exited (exitCodeFor s2) false

/- ### Registry host and VM setup (part_012) -/

/-- Host component produced by Go's `url.Parse` on the image references the
driver receives: a reference containing `://` has an authority extending to
the next `/`; otherwise the parsed host is empty.  Modelled from the Go
standard library (`net/url` is outside this repository); parsing these
references never fails. -/
def urlParseHost (image : String) : String :=
  match dropAfterPat "://".data image.data with
  | some rest => ⟨rest.takeWhile (fun c => c ≠ '/')⟩
  | none => ""

/-- registryHost extracts the registry host from an image URL: the parsed
host when present, otherwise everything before the first `/`
(part_012 lines 369-386). -/
def registryHost (image : String) : Except String String :=
  let host := urlParseHost image
  if host != "" then .ok host
  else
    match (splitOnChar '/' image).headD "" with
    | "" => .error ("invalid image reference: " ++ image)
    | h => .ok h

/-- LinuxResources fragment of the Nomad resources block consulted by Setup
(part_012 lines 87-91). -/
structure LinuxResources where
  CpusetCpus : String
  MemoryLimitBytes : Int

/-- Subset of the Nomad task configuration Setup reads. -/
structure NomadTaskConfig where
  AllocID : String
  Resources : Option LinuxResources

/-- Subset of the driver TaskConfig Setup reads (driver/config.go). -/
structure SetupTaskConfig where
  URL : String
  DiskSize : Int
  Auth : Auth

/-- VMConfig bundles driver and Nomad task configuration (part_003). -/
structure VMConfig where
  TaskConfig : SetupTaskConfig
  NomadConfig : NomadTaskConfig

/-- generateVMName derives the VM name from the allocation id
(part_012 lines 350-352). -/
def generateVMName (allocationID : String) : String :=
  "nomad-" ++ allocationID

/-- Subprocess invocations Setup can make, in the order they are run. -/
inductive Cmd where
  | login (host username : String)
  | clone (url vmName : String)
  | setResources (vmName : String) (cpu memoryMB diskGB : Int)
deriving DecidableEq, Repr

/-- SetVMResources invocation: the `tart set` command is skipped entirely
when no positive override applies (part_012 lines 322-348). -/
def setVMResourcesCmds (vmName : String) (cpu memoryMB diskGB : Int) : List Cmd :=
  if cpu > 0 ∨ memoryMB > 0 ∨ diskGB > 0 then
    [Cmd.setResources vmName cpu memoryMB diskGB]
  else
    []

/-- Clone-and-set-resources tail of Setup (part_012 lines 78-107): clone the
image into the allocation-named VM, then apply resource overrides derived
from the Nomad resources block (defaults 4 cores, 4096 MB).  Subprocess
success is supplied by the `cloneOk`/`setOk` oracles; the returned pair is
the command trace and the Go `(string, error)` result. -/
def setupCloneAndSet (config : VMConfig) (pre : List Cmd) (cloneOk setOk : Bool) :
    List Cmd × Except String String :=
  let vmName := generateVMName config.NomadConfig.AllocID
  let url := config.TaskConfig.URL
  let cpuCores : Int :=
    match config.NomadConfig.Resources with
    | some r => ((splitOnChar ',' r.CpusetCpus).length : Int)
    | none => 4
  let memoryMB : Int :=
    match config.NomadConfig.Resources with
    | some r => r.MemoryLimitBytes / 1024 / 1024
    | none => 4096
  let diskGB := config.TaskConfig.DiskSize
  let trace := pre ++ [Cmd.clone url vmName]
  if !cloneOk then
    (trace, .error ("failed to create VM " ++ vmName ++ " from URL " ++ url))
  else
    let setCmds := setVMResourcesCmds vmName cpuCores memoryMB diskGB
    if !setCmds.isEmpty ∧ !setOk then
      (trace ++ setCmds, .error "failed to set VM resources")
    else
      (trace ++ setCmds, .ok vmName)

/-- TartClient.Setup (part_012 lines 60-108): when registry auth is valid, a
login scoped to the registry host parsed from the image reference runs first
and a login failure aborts the whole call; otherwise Setup goes straight to
cloning. -/
def TartClient.Setup (config : VMConfig) (loginOk cloneOk setOk : Bool) :
    List Cmd × Except String String :=
  if config.TaskConfig.Auth.IsValid then
    match registryHost config.TaskConfig.URL with
    | .error e => ([], .error ("failed to parse URL: " ++ e))
    | .ok host =>
      let loginCmd := Cmd.login host config.TaskConfig.Auth.Username
      if !loginOk then
        ([loginCmd], .error "failed to login to container registry")
      else
        setupCloneAndSet config [loginCmd] cloneOk setOk
  else
    setupCloneAndSet config [] cloneOk setOk

/- ### Driver task registry operations (driver/driver.go, part_001) -/

/-- Nomad task lifecycle states relevant to the driver handle. -/
inductive TaskState where
  | running
  | exited
  | unknown
deriving DecidableEq, Repr

/-- Fields of the in-memory task handle the registry operations consult;
`pid` and `startedAt` stand for the remaining bookkeeping fields so that
claims quantifying over handles range over more than the state
(driver/handle.go lines 16-52). -/
structure TaskHandle where
  state : TaskState
  pid : Int
  startedAt : Nat
deriving DecidableEq, Repr

/-- taskHandle.IsRunning (driver/handle.go lines 76-80). -/
def TaskHandle.IsRunning (h : TaskHandle) : Bool :=
  h.state = TaskState.running

/-- taskStore from part_001: an association list keyed by task id models the
in-memory map (first binding wins on lookup, duplicate keys never arise
because Set overwrites). -/
abbrev TaskStore := List (String × TaskHandle)

/-- taskStore.Get (part_001). -/
def storeGet (ts : TaskStore) (id : String) : Option TaskHandle :=
  match ts.find? (fun p => p.1 = id) with
  | some p => some p.2
  | none => none

/-- taskStore.Delete (part_001). -/
def storeDelete (ts : TaskStore) (id : String) : TaskStore :=
  ts.filter (fun p => p.1 ≠ id)

/-- Errors a driver RPC can return: the distinct task-not-found sentinel
(`drivers.ErrTaskNotFound`) or an ordinary message error. -/
inductive DriverError where
  | taskNotFound
  | msg (s : String)
deriving DecidableEq, Repr

/-- Driver.DestroyTask (driver/driver.go lines 395-415): unknown ids return
the not-found sentinel; a Running handle without `force` is rejected and the
registry is left unchanged; otherwise the handle is removed.  The returned
pair is the Go error (none for success) and the registry afterwards. -/
def DestroyTask (ts : TaskStore) (taskID : String) (force : Bool) :
    Option DriverError × TaskStore :=
  match storeGet ts taskID with
  | none => (some DriverError.taskNotFound, ts)
  | some handle =>
    if handle.IsRunning && !force then
      (some (DriverError.msg "cannot destroy running task"), ts)
    else
      (none, storeDelete ts taskID)

/-- Result type of the non-streaming exec RPC (`drivers.ExecTaskResult`);
the driver never constructs one. -/
structure ExecTaskResult where
  exitCode : Nat
deriving DecidableEq, Repr

/-- Driver.ExecTask (driver/driver.go lines 453-462): a registered task gets
`(nil, "exec is not supported by the tart driver")` regardless of command
and timeout; an unknown id gets the not-found sentinel.  The pair mirrors
the Go `(*ExecTaskResult, error)` return. -/
def ExecTask (ts : TaskStore) (taskID : String) (_cmd : List String)
    (_timeout : Nat) : Option ExecTaskResult × Option DriverError :=
  match storeGet ts taskID with
  | none => (none, some DriverError.taskNotFound)
  | some _ => (none, some (DriverError.msg "exec is not supported by the tart driver"))

/-- Filesystem isolation modes of the plugin capability declaration. -/
inductive FSIsolationMode where
  | isolationNone
  | chroot
  | image
deriving DecidableEq, Repr

/-- drivers.Capabilities subset declared by the driver. -/
structure Capabilities where
  SendSignals : Bool
  Exec : Bool
  FSIsolation : FSIsolationMode
deriving DecidableEq, Repr

/-- Capability declaration of the driver (driver/driver.go lines 40-47). -/
def capabilities : Capabilities :=
  { SendSignals := true, Exec := true, FSIsolation := FSIsolationMode.image }


/- ### Shared helper lemmas -/

/-- Nonempty lists have `isEmpty = false`. -/
theorem isEmpty_eq_false_of_ne_nil {α : Type} {l : List α} (h : l ≠ []) :
    l.isEmpty = false := by
  cases l with
  | nil => exact absurd rfl h
  | cons a t => rfl

/-- Reassociation of a string append whose left part is known. -/
theorem append_left_lit {a b c : String} (x : String) (h : a ++ b = c) :
    a ++ (b ++ x) = c ++ x := by
  rw [← String.append_assoc, h]

/-- The trace of the clone-and-set-resources tail always extends the prefix
commands it was handed. -/
theorem setupCloneAndSet_trace (config : VMConfig) (pre : List Cmd) (co so : Bool) :
    ∃ rest, (setupCloneAndSet config pre co so).1 = pre ++ rest := by
  simp only [setupCloneAndSet]
  split
  · exact ⟨_, rfl⟩
  · split
    · exact ⟨_, by rw [List.append_assoc]⟩
    · exact ⟨_, by rw [List.append_assoc]⟩

/- ### C7 -/

/-- C7: convertTartStatus is case-insensitive and maps any string whose
lowercase form is neither "running" nor "paused" to Stopped; "Running",
"running" and "RUNNING" map to Running, "paused" and "PAUSED" to Paused,
"stopped" and "banana" to Stopped. -/
theorem convertTartStatus_normalization :
    (∀ s t : String, lowerStr s = lowerStr t → convertTartStatus s = convertTartStatus t) ∧
    (∀ s : String, lowerStr s ≠ "running" → lowerStr s ≠ "paused" →
      convertTartStatus s = VMState.stopped) ∧
    convertTartStatus "Running" = VMState.running ∧
    convertTartStatus "running" = VMState.running ∧
    convertTartStatus "RUNNING" = VMState.running ∧
    convertTartStatus "paused" = VMState.paused ∧
    convertTartStatus "PAUSED" = VMState.paused ∧
    convertTartStatus "stopped" = VMState.stopped ∧
    convertTartStatus "banana" = VMState.stopped := by
  refine ⟨fun s t h => by simp only [convertTartStatus, h],
    fun s h1 h2 => ?_, by decide, by decide, by decide, by decide, by decide,
    by decide, by decide⟩
  unfold convertTartStatus
  split
  · next heq => exact absurd heq h1
  · next heq => exact absurd heq h2
  · rfl

/-- Witness for C7: the case-insensitivity and the conservative default,
applied at concrete inputs. -/
theorem convertTartStatus_normalization_witness :
    convertTartStatus "Banana" = VMState.stopped ∧
    convertTartStatus "StOpPeD" = convertTartStatus "STOPPED" :=
  ⟨convertTartStatus_normalization.2.1 "Banana" (by decide) (by decide),
   convertTartStatus_normalization.1 "StOpPeD" "STOPPED" (by decide)⟩

/- ### C8 -/

/-- C8: the available-slot count equals the fixed ceiling of 2 minus the
number of Running VMs, clamped at zero; it is never negative, and for
0, 1, 2 and 3 Running VMs it is 2, 1, 0 and 0. -/
theorem availableSlots_clamped :
    (∀ vms : List VMInfo,
      availableSlots vms = max 0 ((maxVMSlots : Int) - (runningVMsCount vms : Int))) ∧
    (∀ vms : List VMInfo, 0 ≤ availableSlots vms) ∧
    availableSlots [] = 2 ∧
    availableSlots [⟨"a", .running⟩] = 1 ∧
    availableSlots [⟨"a", .running⟩, ⟨"b", .running⟩] = 0 ∧
    availableSlots [⟨"a", .running⟩, ⟨"b", .running⟩, ⟨"c", .running⟩] = 0 ∧
    (∀ (n : Nat) (name : String),
      availableSlots (List.replicate n ⟨name, VMState.running⟩) = max 0 (2 - (n : Int))) := by
  have hmain : ∀ vms : List VMInfo,
      availableSlots vms = max 0 ((maxVMSlots : Int) - (runningVMsCount vms : Int)) := by
    intro vms
    simp only [availableSlots]
    split <;> omega
  have hrep : ∀ (n : Nat) (name : String),
      runningVMsCount (List.replicate n ⟨name, VMState.running⟩) = n := by
    intro n name
    simp [runningVMsCount, List.filter_replicate]
  refine ⟨hmain, fun vms => ?_, by decide, by decide, by decide, by decide,
    fun n name => ?_⟩
  · rw [hmain]; exact le_max_left 0 _
  · rw [hmain, hrep]; rfl

/- ### C9 -/

/-- C9: DestroyTask on a registered handle in the Running state with
force = false returns the cannot-destroy error and leaves the registry
unchanged, for every such handle regardless of its other fields. -/
theorem destroyTask_rejects_running :
    ∀ (ts : TaskStore) (taskID : String) (h : TaskHandle),
      storeGet ts taskID = some h → h.state = TaskState.running →
      DestroyTask ts taskID false =
        (some (DriverError.msg "cannot destroy running task"), ts) ∧
      storeGet (DestroyTask ts taskID false).2 taskID = some h := by
  intro ts taskID h hget hstate
  have hrun : h.IsRunning = true := by
    simp [TaskHandle.IsRunning, hstate]
  have : DestroyTask ts taskID false =
      (some (DriverError.msg "cannot destroy running task"), ts) := by
    simp [DestroyTask, hget, hrun]
  exact ⟨this, by rw [this]; exact hget⟩

/-- Witness for C9: a concrete Running handle is not destroyed without
force. -/
theorem destroyTask_rejects_running_witness :
    DestroyTask [("t1", ⟨TaskState.running, 7, 3⟩)] "t1" false =
      (some (DriverError.msg "cannot destroy running task"),
       [("t1", ⟨TaskState.running, 7, 3⟩)]) ∧
    storeGet (DestroyTask [("t1", ⟨TaskState.running, 7, 3⟩)] "t1" false).2 "t1" =
      some ⟨TaskState.running, 7, 3⟩ :=
  destroyTask_rejects_running [("t1", ⟨TaskState.running, 7, 3⟩)] "t1"
    ⟨TaskState.running, 7, 3⟩ (by decide) rfl

/- ### C10 -/

/-- C10: for a registered task id ExecTask returns no result and the fixed
unsupported-exec error for any command and timeout, even though the declared
capabilities report Exec as true; an unregistered id gets the task-not-found
sentinel. -/
theorem execTask_always_unsupported :
    (∀ (ts : TaskStore) (taskID : String) (cmd : List String) (timeout : Nat)
      (h : TaskHandle), storeGet ts taskID = some h →
      ExecTask ts taskID cmd timeout =
        (none, some (DriverError.msg "exec is not supported by the tart driver"))) ∧
    (∀ (ts : TaskStore) (taskID : String) (cmd : List String) (timeout : Nat),
      storeGet ts taskID = none →
      ExecTask ts taskID cmd timeout = (none, some DriverError.taskNotFound)) ∧
    capabilities.Exec = true := by
  refine ⟨fun ts taskID cmd timeout h hget => ?_, fun ts taskID cmd timeout hget => ?_, rfl⟩
  · simp [ExecTask, hget]
  · simp [ExecTask, hget]

/-- Witness for C10: a registered and an unregistered task id at concrete
inputs. -/
theorem execTask_always_unsupported_witness :
    ExecTask [("t1", ⟨TaskState.running, 7, 3⟩)] "t1" ["whoami"] 30 =
      (none, some (DriverError.msg "exec is not supported by the tart driver")) ∧
    ExecTask [] "t2" ["whoami"] 30 = (none, some DriverError.taskNotFound) :=
  ⟨execTask_always_unsupported.1 [("t1", ⟨TaskState.running, 7, 3⟩)] "t1" ["whoami"] 30
      ⟨TaskState.running, 7, 3⟩ (by decide),
   execTask_always_unsupported.2.1 [] "t2" ["whoami"] 30 (by decide)⟩

/- ### C4 -/

/-- C4: for every non-nil root-disk configuration buildRootDiskArgs returns
exactly one token `--root-disk-opts=<tail>` whose tail is the comma-join of
the parts in the order ro, caching=..., sync=..., each present only when
configured; all options unset still yields the empty-tail token, while a nil
configuration yields no arguments. -/
theorem buildRootDiskArgs_single_ordered_token :
    buildRootDiskArgs none = .ok [] ∧
    (∀ cfg : RootDiskOptions,
      buildRootDiskArgs (some cfg) =
        .ok ["--root-disk-opts=" ++ String.intercalate ","
          ((if cfg.ReadOnly then ["ro"] else []) ++
           (match cfg.CachingMode with
            | some m => ["caching=" ++ cachingValueOf m]
            | none => []) ++
           (match cfg.SyncMode with
            | some m => ["sync=" ++ syncValueOf m]
            | none => []))]) ∧
    buildRootDiskArgs (some ⟨false, none, none⟩) = .ok ["--root-disk-opts="] := by
  refine ⟨rfl, fun cfg => ?_, by decide⟩
  obtain ⟨ro, sync, caching⟩ := cfg
  cases ro <;> cases sync <;> cases caching <;> simp [buildRootDiskArgs]

/- ### C5 (corrected) -/

/-- C5 counterexample: a caching mode that normalizes to no enum member does
not produce a validation error; buildRootDiskArgs succeeds and emits the
`caching=` key with an empty value. -/
theorem buildRootDiskArgs_invalid_mode_not_rejected :
    buildRootDiskArgs (some ⟨false, none, some "banana"⟩) =
      .ok ["--root-disk-opts=caching="] ∧
    (buildRootDiskArgs (some ⟨false, none, some "banana"⟩)).isOk = true ∧
    buildRootDiskArgs (some ⟨false, some "bogus", none⟩) =
      .ok ["--root-disk-opts=sync="] := by
  refine ⟨by decide, ?_, by decide⟩
  rw [show buildRootDiskArgs (some ⟨false, none, some "banana"⟩) =
    .ok ["--root-disk-opts=caching="] from by decide]
  rfl

/-- C5 amended: caching and sync mode strings are lowercased and
whitespace-trimmed before being matched against their enums, but an
unrecognized mode is not rejected — buildRootDiskArgs never errors, the
switch leaves the value empty, and the token carries `caching=`/`sync=` with
an empty value. -/
theorem buildRootDiskArgs_mode_normalization_no_error :
    (∀ cfg : RootDiskOptions, ∃ l, buildRootDiskArgs (some cfg) = .ok l) ∧
    (∀ raw : String, CleanValue raw ≠ "automatic" → CleanValue raw ≠ "uncached" →
      CleanValue raw ≠ "cached" → cachingValueOf raw = "") ∧
    (∀ raw : String, CleanValue raw ≠ "fsync" → CleanValue raw ≠ "full" →
      CleanValue raw ≠ "none" → syncValueOf raw = "") ∧
    (∀ raw : String, buildRootDiskArgs (some ⟨false, none, some raw⟩) =
      .ok ["--root-disk-opts=caching=" ++ cachingValueOf raw]) ∧
    (∀ raw : String, buildRootDiskArgs (some ⟨false, some raw, none⟩) =
      .ok ["--root-disk-opts=sync=" ++ syncValueOf raw]) ∧
    cachingValueOf " CACHED " = "cached" ∧
    syncValueOf "  Full " = "full" := by
  refine ⟨fun cfg => ?_, fun raw h1 h2 h3 => ?_, fun raw h1 h2 h3 => ?_,
    fun raw => by
      simp only [buildRootDiskArgs, String.intercalate, String.intercalate.go,
        if_neg (by decide : ¬ false = true), List.nil_append]
      rw [← String.append_assoc]
      exact congrArg (fun s => Except.ok [s ++ cachingValueOf raw])
        (show "--root-disk-opts=" ++ "caching=" = "--root-disk-opts=caching=" by decide),
    fun raw => by
      simp only [buildRootDiskArgs, String.intercalate, String.intercalate.go,
        if_neg (by decide : ¬ false = true), List.nil_append]
      rw [← String.append_assoc]
      exact congrArg (fun s => Except.ok [s ++ syncValueOf raw])
        (show "--root-disk-opts=" ++ "sync=" = "--root-disk-opts=sync=" by decide),
    by decide, by decide⟩
  · obtain ⟨ro, sync, caching⟩ := cfg
    cases ro <;> cases sync <;> cases caching <;> exact ⟨_, rfl⟩
  · unfold cachingValueOf
    split
    · next heq => exact absurd heq h1
    · next heq => exact absurd heq h2
    · next heq => exact absurd heq h3
    · rfl
  · unfold syncValueOf
    split
    · next heq => exact absurd heq h1
    · next heq => exact absurd heq h2
    · next heq => exact absurd heq h3
    · rfl

/-- Witness for C5 amended: an unrecognized caching mode at a concrete
input flows through without error. -/
theorem buildRootDiskArgs_mode_normalization_no_error_witness :
    cachingValueOf "banana" = "" ∧
    syncValueOf "writeback" = "" :=
  ⟨buildRootDiskArgs_mode_normalization_no_error.2.1 "banana"
      (by decide) (by decide) (by decide),
   buildRootDiskArgs_mode_normalization_no_error.2.2.1 "writeback"
      (by decide) (by decide) (by decide)⟩

/- ### C2 -/

/-- C2: when the monitor's first status read is non-Running but the single
confirmation re-read reports Running, the handle stays Running and nothing
is emitted — the step behaves exactly like an all-Running tick; the monitor
commits to Exited only once the confirmation read also fails to report
Running. -/
theorem monitorRun_requires_confirmation :
    (∀ (s : VMState) (rest : List StatusObs), s ≠ VMState.running →
      monitorRun (.ok s :: .ok VMState.running :: rest) = monitorRun rest) ∧
    (∀ s : VMState, s ≠ VMState.running →
      monitorRun [.ok s, .ok VMState.running] = MonitorResult.running) ∧
    (∀ s s2 : VMState, s ≠ VMState.running → s2 ≠ VMState.running →
      monitorRun [.ok s, .ok s2] = MonitorResult.exited (exitCodeFor s2) false) := by
  refine ⟨fun s rest h => ?_, fun s h => ?_, fun s s2 h h2 => ?_⟩
  · simp [monitorRun, h]
  · simp [monitorRun, h]
  · simp [monitorRun, h, h2]

/-- Witness for C2: a false-negative Stopped read followed by a Running
confirmation leaves the handle Running, while a confirmed Stopped commits
to a clean exit. -/
theorem monitorRun_requires_confirmation_witness :
    monitorRun [.ok VMState.stopped, .ok VMState.running] = MonitorResult.running ∧
    monitorRun [.ok VMState.stopped, .ok VMState.stopped] =
      MonitorResult.exited (exitCodeFor VMState.stopped) false :=
  ⟨monitorRun_requires_confirmation.2.1 VMState.stopped (by decide),
   monitorRun_requires_confirmation.2.2 VMState.stopped VMState.stopped
      (by decide) (by decide)⟩

/- ### C6 -/

/-- C6: buildDirectoryArgs emits one `--dir=` token per mount; a mount with
an empty or whitespace-only path always errors; an omitted name omits the
name prefix and its colon; the options suffix is the comma-join of `ro` and
`tag=<value>` behind a colon and disappears entirely when neither applies. -/
theorem buildDirectoryArgs_one_token_per_mount :
    (∀ dirs : List DirectoryMount, (∃ d, d ∈ dirs ∧ trimSpace d.Path = "") →
      buildDirectoryArgs dirs = .error "directory.path is required for directory mounts") ∧
    (∀ (dirs : List DirectoryMount) (args : List String),
      buildDirectoryArgs dirs = .ok args → args.length = dirs.length) ∧
    (∀ d : DirectoryMount, trimSpace d.Path ≠ "" →
      buildDirectoryArgs [d] = .ok ["--dir=" ++
        ((if trimSpace d.Name ≠ "" then trimSpace d.Name ++ ":" else "") ++
          trimSpace d.Path ++ dirOptionsSuffix d.Options)]) ∧
    dirOptionsSuffix none = "" ∧
    (∀ o : DirectoryOptions, o.ReadOnly = false → trimSpace o.Tag = "" →
      dirOptionsSuffix (some o) = "") ∧
    (∀ o : DirectoryOptions, o.ReadOnly = true → trimSpace o.Tag = "" →
      dirOptionsSuffix (some o) = ":ro") ∧
    (∀ o : DirectoryOptions, o.ReadOnly = false → trimSpace o.Tag ≠ "" →
      dirOptionsSuffix (some o) = ":tag=" ++ trimSpace o.Tag) ∧
    (∀ o : DirectoryOptions, o.ReadOnly = true → trimSpace o.Tag ≠ "" →
      dirOptionsSuffix (some o) = ":ro,tag=" ++ trimSpace o.Tag) := by
  have conj1 : ∀ dirs : List DirectoryMount, (∃ d, d ∈ dirs ∧ trimSpace d.Path = "") →
      buildDirectoryArgs dirs = .error "directory.path is required for directory mounts" := by
    intro dirs
    induction dirs with
    | nil => rintro ⟨d, hd, _⟩; cases hd
    | cons d rest ih =>
      rintro ⟨e, he, hpe⟩
      simp only [buildDirectoryArgs]
      by_cases hp : trimSpace d.Path = ""
      · simp [hp]
      · have hmem : e ∈ rest := by
          rcases List.mem_cons.mp he with h | h
          · exact absurd (h ▸ hpe) hp
          · exact h
        have herr := ih ⟨e, hmem, hpe⟩
        simp [hp, herr]
  have conj2 : ∀ (dirs : List DirectoryMount) (args : List String),
      buildDirectoryArgs dirs = .ok args → args.length = dirs.length := by
    intro dirs
    induction dirs with
    | nil =>
      intro args h
      simp only [buildDirectoryArgs] at h
      cases h
      rfl
    | cons d rest ih =>
      intro args h
      simp only [buildDirectoryArgs] at h
      by_cases hp : trimSpace d.Path = ""
      · simp [hp] at h
      · simp only [hp, beq_iff_eq, if_false, if_neg hp] at h
        cases hrec : buildDirectoryArgs rest with
        | error e => rw [hrec] at h; cases h
        | ok as =>
          rw [hrec] at h
          cases h
          simp [ih as hrec]
  refine ⟨conj1, conj2, fun d hp => ?_, rfl, fun o hro htag => ?_, fun o hro htag => ?_,
    fun o hro htag => ?_, fun o hro htag => ?_⟩
  · simp only [buildDirectoryArgs]
    by_cases hn : trimSpace d.Name = "" <;> simp [hp, hn]
  · simp [dirOptionsSuffix, hro, htag]
  · simp [dirOptionsSuffix, hro, htag, String.intercalate, String.intercalate.go]
  · simp [dirOptionsSuffix, hro, htag, String.intercalate, String.intercalate.go]
    exact append_left_lit (trimSpace o.Tag) (show ":" ++ "tag=" = ":tag=" by decide)
  · simp [dirOptionsSuffix, hro, htag, String.intercalate, String.intercalate.go]
    rw [← String.append_assoc, ← String.append_assoc]
    exact congrArg (fun s => s ++ trimSpace o.Tag) (by decide)

/-- Witness for C6: a whitespace-only path errors, and a named read-only
tagged mount produces the composed token, at concrete inputs. -/
theorem buildDirectoryArgs_one_token_per_mount_witness :
    buildDirectoryArgs [⟨"assets", "   ", none⟩] =
      .error "directory.path is required for directory mounts" ∧
    buildDirectoryArgs [⟨"assets", "/tmp/a", some ⟨true, "foo"⟩⟩] =
      .ok ["--dir=" ++
        ((if trimSpace "assets" ≠ "" then trimSpace "assets" ++ ":" else "") ++
          trimSpace "/tmp/a" ++ dirOptionsSuffix (some ⟨true, "foo"⟩))] ∧
    dirOptionsSuffix (some ⟨true, "foo"⟩) = ":ro,tag=" ++ trimSpace "foo" :=
  ⟨buildDirectoryArgs_one_token_per_mount.1 [⟨"assets", "   ", none⟩]
      ⟨⟨"assets", "   ", none⟩, List.mem_singleton.mpr rfl, by decide⟩,
   buildDirectoryArgs_one_token_per_mount.2.2.1 ⟨"assets", "/tmp/a", some ⟨true, "foo"⟩⟩
      (by decide),
   buildDirectoryArgs_one_token_per_mount.2.2.2.2.2.2.2 ⟨true, "foo"⟩ rfl (by decide)⟩

/- ### C3 -/

/-- C3: when registry auth has both username and password non-empty, Setup
first runs a login invocation scoped to the registry host parsed from the
image reference (the URL authority when the reference parses with a host,
otherwise the substring before the first slash) with the provided
credentials, before the clone invocation; a failed login makes Setup return
an error with no clone attempted. -/
theorem setup_login_scoped_before_clone :
    ∀ (config : VMConfig) (lo co so : Bool) (host : String),
      config.TaskConfig.Auth.IsValid = true →
      registryHost config.TaskConfig.URL = .ok host →
      ((TartClient.Setup config lo co so).1.head? =
        some (Cmd.login host config.TaskConfig.Auth.Username)) ∧
      (lo = false →
        TartClient.Setup config lo co so =
          ([Cmd.login host config.TaskConfig.Auth.Username],
            .error "failed to login to container registry") ∧
        (∀ u v, Cmd.clone u v ∉ (TartClient.Setup config lo co so).1)) := by
  intro config lo co so host hvalid hhost
  cases lo with
  | false =>
    have hs : TartClient.Setup config false co so =
        ([Cmd.login host config.TaskConfig.Auth.Username],
          .error "failed to login to container registry") := by
      simp [TartClient.Setup, hvalid, hhost]
    refine ⟨by rw [hs]; rfl, fun _ => ⟨hs, ?_⟩⟩
    intro u v hmem
    rw [hs] at hmem
    simp at hmem
  | true =>
    obtain ⟨rest, htr⟩ := setupCloneAndSet_trace config
      [Cmd.login host config.TaskConfig.Auth.Username] co so
    have hs : TartClient.Setup config true co so =
        setupCloneAndSet config [Cmd.login host config.TaskConfig.Auth.Username] co so := by
      simp [TartClient.Setup, hvalid, hhost]
    refine ⟨?_, fun hcontra => absurd hcontra (by decide)⟩
    rw [hs, htr]
    rfl

/-- Witness for C3: the concrete private image with valid credentials; a
failed login yields exactly the login trace and the login error. -/
theorem setup_login_scoped_before_clone_witness :
    TartClient.Setup
        ⟨⟨"ghcr.io/example/private:latest", 0, ⟨"user1", "pass1"⟩⟩, ⟨"alloc1", none⟩⟩
        false true true =
      ([Cmd.login "ghcr.io" "user1"], .error "failed to login to container registry") :=
  ((setup_login_scoped_before_clone
      ⟨⟨"ghcr.io/example/private:latest", 0, ⟨"user1", "pass1"⟩⟩, ⟨"alloc1", none⟩⟩
      false true true "ghcr.io" (by decide) (by decide)).2 rfl).1

/- ### C1 -/

/-- C1: buildTartNetworkArgs selects exactly one of default-NAT, host,
bridged, or softnet; host mode with a bridged interface or softnet lists
errors; bridged mode without an interface errors; bridged mode with softnet
lists errors; softnet mode with a bridged interface errors; a non-empty
unrecognized mode errors; and allow/expose lists with no explicit mode imply
softnet. -/
theorem buildTartNetworkArgs_mode_resolution :
    (∀ cfg : NetworkConfig, lowerStr (trimSpace cfg.Mode) = "host" →
      (trimSpace cfg.BridgedInterface ≠ "" ∨ cfg.SoftnetAllow ≠ [] ∨ cfg.SoftnetExpose ≠ []) →
      buildTartNetworkArgs (some cfg) =
        .error "networking options conflict: host mode cannot be combined with bridged_interface or softnet options") ∧
    (∀ cfg : NetworkConfig, lowerStr (trimSpace cfg.Mode) = "bridged" →
      trimSpace cfg.BridgedInterface = "" →
      buildTartNetworkArgs (some cfg) = .error "bridged mode requires 'bridged_interface'") ∧
    (∀ cfg : NetworkConfig, lowerStr (trimSpace cfg.Mode) = "bridged" →
      (cfg.SoftnetAllow ≠ [] ∨ cfg.SoftnetExpose ≠ []) →
      trimSpace cfg.BridgedInterface ≠ "" →
      buildTartNetworkArgs (some cfg) =
        .error "networking options conflict: bridged mode cannot be combined with softnet options") ∧
    (∀ cfg : NetworkConfig, lowerStr (trimSpace cfg.Mode) = "softnet" →
      trimSpace cfg.BridgedInterface ≠ "" →
      buildTartNetworkArgs (some cfg) =
        .error "networking options conflict: softnet mode cannot be combined with bridged_interface") ∧
    (∀ cfg : NetworkConfig, lowerStr (trimSpace cfg.Mode) ∉
        (["", "default", "shared", "nat", "host", "bridged", "softnet"] : List String) →
      buildTartNetworkArgs (some cfg) =
        .error ("unknown networking mode: " ++ lowerStr (trimSpace cfg.Mode))) ∧
    (∀ cfg : NetworkConfig, lowerStr (trimSpace cfg.Mode) = "" →
      trimSpace cfg.BridgedInterface = "" →
      (cfg.SoftnetAllow ≠ [] ∨ cfg.SoftnetExpose ≠ []) →
      ∃ tail, buildTartNetworkArgs (some cfg) = .ok ("--net-softnet" :: tail)) ∧
    (∀ (cfg : NetworkConfig) (l : List String), buildTartNetworkArgs (some cfg) = .ok l →
      l = [] ∨ l = ["--net-host"] ∨ (∃ i, l = ["--net-bridged", i]) ∨
        (∃ tail, l = "--net-softnet" :: tail)) := by
  refine ⟨fun cfg hm hconf => ?_, fun cfg hm hb => ?_, fun cfg hm hconf hb => ?_,
    fun cfg hm hb => ?_, fun cfg hm => ?_, fun cfg hm hb hconf => ?_, fun cfg l h => ?_⟩
  · rcases hconf with h | h | h
    · simp [buildTartNetworkArgs, hm, h]
    · simp [buildTartNetworkArgs, hm, isEmpty_eq_false_of_ne_nil h]
    · simp [buildTartNetworkArgs, hm, isEmpty_eq_false_of_ne_nil h]
  · simp [buildTartNetworkArgs, hm, hb]
  · rcases hconf with h | h
    · simp [buildTartNetworkArgs, hm, hb, isEmpty_eq_false_of_ne_nil h]
    · simp [buildTartNetworkArgs, hm, hb, isEmpty_eq_false_of_ne_nil h]
  · simp [buildTartNetworkArgs, hm, hb]
  · simp only [List.mem_cons, List.mem_singleton, not_or] at hm
    obtain ⟨h1, h2, h3, h4, h5, h6, h7⟩ := hm
    simp [buildTartNetworkArgs, h1, h2, h3, h4, h5, h6, h7]
  · have ha : (!cfg.SoftnetAllow.isEmpty || !cfg.SoftnetExpose.isEmpty) = true := by
      rcases hconf with h | h <;> simp [isEmpty_eq_false_of_ne_nil h]
    cases hA : cfg.SoftnetAllow.isEmpty <;> cases hE : cfg.SoftnetExpose.isEmpty
    · refine ⟨["--net-softnet-allow", String.intercalate "," cfg.SoftnetAllow,
        "--net-softnet-expose", String.intercalate "," cfg.SoftnetExpose], ?_⟩
      simp [buildTartNetworkArgs, hm, hb, hA, hE]
    · refine ⟨["--net-softnet-allow", String.intercalate "," cfg.SoftnetAllow], ?_⟩
      simp [buildTartNetworkArgs, hm, hb, hA, hE]
    · refine ⟨["--net-softnet-expose", String.intercalate "," cfg.SoftnetExpose], ?_⟩
      simp [buildTartNetworkArgs, hm, hb, hA, hE]
    · rw [hA, hE] at ha
      simp at ha
  · simp only [buildTartNetworkArgs] at h
    split at h
    · split at h
      · exact Except.noConfusion h
      · injection h with h2
        exact Or.inr (Or.inl h2.symm)
    · split at h
      · split at h
        · exact Except.noConfusion h
        · split at h
          · exact Except.noConfusion h
          · injection h with h2
            exact Or.inr (Or.inr (Or.inl ⟨_, h2.symm⟩))
      · split at h
        · split at h
          · exact Except.noConfusion h
          · injection h with h2
            refine Or.inr (Or.inr (Or.inr ?_))
            rw [← h2]
            split
            · split
              · refine ⟨["--net-softnet-allow", String.intercalate "," cfg.SoftnetAllow,
                  "--net-softnet-expose", String.intercalate "," cfg.SoftnetExpose], ?_⟩
                simp
              · exact ⟨_, rfl⟩
            · split
              · exact ⟨_, rfl⟩
              · exact ⟨[], rfl⟩
        · split at h
          · exact Except.noConfusion h
          · injection h with h2
            exact Or.inl h2.symm

/-- Witness for C1: the four error conditions and the implied-softnet rule
at concrete configurations. -/
theorem buildTartNetworkArgs_mode_resolution_witness :
    buildTartNetworkArgs (some ⟨"host", "en0", [], []⟩) =
      .error "networking options conflict: host mode cannot be combined with bridged_interface or softnet options" ∧
    buildTartNetworkArgs (some ⟨"bridged", "", [], []⟩) =
      .error "bridged mode requires 'bridged_interface'" ∧
    buildTartNetworkArgs (some ⟨"bridged", "en0", ["10.0.0.0/8"], []⟩) =
      .error "networking options conflict: bridged mode cannot be combined with softnet options" ∧
    buildTartNetworkArgs (some ⟨"softnet", "en0", [], []⟩) =
      .error "networking options conflict: softnet mode cannot be combined with bridged_interface" ∧
    buildTartNetworkArgs (some ⟨"banana", "", [], []⟩) =
      .error ("unknown networking mode: " ++ lowerStr (trimSpace "banana")) ∧
    (∃ tail, buildTartNetworkArgs (some ⟨"", "", ["10.0.0.0/8"], []⟩) =
      .ok ("--net-softnet" :: tail)) :=
  ⟨buildTartNetworkArgs_mode_resolution.1 ⟨"host", "en0", [], []⟩ (by decide)
      (Or.inl (by decide)),
   buildTartNetworkArgs_mode_resolution.2.1 ⟨"bridged", "", [], []⟩ (by decide) (by decide),
   buildTartNetworkArgs_mode_resolution.2.2.1 ⟨"bridged", "en0", ["10.0.0.0/8"], []⟩
      (by decide) (Or.inl (by decide)) (by decide),
   buildTartNetworkArgs_mode_resolution.2.2.2.1 ⟨"softnet", "en0", [], []⟩
      (by decide) (by decide),
   buildTartNetworkArgs_mode_resolution.2.2.2.2.1 ⟨"banana", "", [], []⟩ (by decide),
   buildTartNetworkArgs_mode_resolution.2.2.2.2.2.1 ⟨"", "", ["10.0.0.0/8"], []⟩
      (by decide) (by decide) (Or.inl (by decide))⟩

end NomadDriverTart
